import Mathlib

/-!
Verification of the configuration bootstrap in `src/api_bridge.py`.

The visible source is module-level setup code: logging configuration,
Flask app creation, a CORS registration, and a `Config` class reading
environment variables.  We embed the environment as a partial map from
variable names to string values and translate each top-level construct.
-/

/-- A process environment: a partial map from variable names to values. -/
def Env := String → Option String

/-- Python `os.getenv(key, default)`: the variable's value when set,
otherwise the supplied default.  This call never raises. -/
def osGetenv (env : Env) (key dflt : String) : String :=
  (env key).getD dflt

/-- Python `str.lower()`, character by character.  It agrees with the
Unicode lowering Python performs on every string relevant to the claims:
the only code points whose Python lowercase form is one of `t`, `r`,
`u`, `e` are the corresponding ASCII letters. -/
def pyLower (s : String) : String :=
  String.mk (s.data.map Char.toLower)

namespace Config

/-- `Config.DEBUG` from `api_bridge.py` line 39:
`os.getenv('FLASK_DEBUG', 'False').lower() == 'true'`. -/
def DEBUG (env : Env) : Bool :=
  pyLower (osGetenv env "FLASK_DEBUG" "False") == "true"

end Config

/-- A Python expression result: either a value or a raised exception,
identified by its class name. -/
def PyResult (α : Type) := Except String α

instance : Monad PyResult := inferInstanceAs (Monad (Except String))

/-- `os.getenv` with a default: total, returns the default when the
variable is unset, and never raises (unlike subscripting `os.environ`). -/
def osGetenvE (env : Env) (key dflt : String) : PyResult String :=
  Except.ok ((env key).getD dflt)

/-- `str.lower()`: total on strings, never raises. -/
def strLowerE (s : String) : PyResult String :=
  Except.ok (pyLower s)

/-- String equality comparison `==`: total, never raises. -/
def strEqE (a b : String) : PyResult Bool :=
  Except.ok (a == b)

/-- Exception-explicit evaluation of the `Config.DEBUG` initializer,
threading each primitive step through `PyResult`. -/
def DEBUGEval (env : Env) : PyResult Bool := do
  let s ← osGetenvE env "FLASK_DEBUG" "False"
  let l ← strLowerE s
  strEqE l "true"

/-! ### Cross-origin registration (line 34) -/

/-- The production dashboard origin from line 34. -/
def prodOrigin : String := "https://evolution-ecosystem.web.app"

/-- The local development origin from line 34. -/
def localOrigin : String := "http://localhost:5000"

/-- The origin allowlist passed for the `/api/*` resource on line 34. -/
def corsOrigins : List String := [prodOrigin, localOrigin]

/-- The `resources` mapping passed to the CORS registration on line 34:
one entry, the path pattern `/api/*` mapped to its origin allowlist. -/
def corsResources : List (String × List String) :=
  [("/api/*", corsOrigins)]

/-- The path patterns covered by the registered cross-origin policy. -/
def corsPatterns : List String := corsResources.map Prod.fst

/-- Whether the registered policy permits `origin` for the resource
registered under `pattern`: the origin must be a member of the allowlist
configured for that pattern; a pattern with no registration permits
nothing. -/
def originPermitted (pattern origin : String) : Bool :=
  match corsResources.find? (fun pr => pr.1 == pattern) with
  | some pr => decide (origin ∈ pr.2)
  | none => false

/-! ### Logging configuration (lines 26-30) -/

namespace PyLogging

/-- Python `logging.DEBUG`. -/
def DEBUG : Nat := 10

/-- Python `logging.INFO`. -/
def INFO : Nat := 20

end PyLogging

/-- The threshold level installed by `logging.basicConfig` on line 27. -/
def basicConfigLevel : Nat := PyLogging.INFO

/-- Whether a record of severity `sev` is emitted by the configured
logger: Python logging emits exactly the records whose level is at least
the configured threshold. -/
def emitted (sev : Nat) : Bool := decide (basicConfigLevel ≤ sev)

/-- The format string installed by `logging.basicConfig` on line 28. -/
def logFormat : String := "%(asctime)s - %(levelname)s - %(module)s - %(message)s"

/-- Scanner state for extracting `%(name)s` fields from a Python
percent-format string. -/
inductive FmtState
  | out
  | pct
  | inField (acc : List Char)
deriving DecidableEq

/-- One step of the field scanner: `%` then `(` opens a mapping key,
which runs to the closing `)`. -/
def fmtStep : List String × FmtState → Char → List String × FmtState
  | (fs, .out), '%' => (fs, .pct)
  | (fs, .out), _ => (fs, .out)
  | (fs, .pct), '(' => (fs, .inField [])
  | (fs, .pct), _ => (fs, .out)
  | (fs, .inField acc), ')' => (fs ++ [String.mk acc.reverse], .out)
  | (fs, .inField acc), c => (fs, .inField (c :: acc))

/-- The mapping keys (record fields) named by a percent-format string,
in order of appearance. -/
def fieldsOfFormat (s : String) : List String :=
  (s.data.foldl fmtStep ([], .out)).1

/-! ### The `Config.PORT` declaration (line 40, truncated) -/

/-- An ASCII decimal digit. -/
def isAsciiDigit (c : Char) : Bool := decide ('0' ≤ c) && decide (c ≤ '9')

/-- The numeric value of an ASCII digit, `none` for any other character. -/
def digitVal (c : Char) : Option Nat :=
  if isAsciiDigit c then some (c.toNat - '0'.toNat) else none

/-- One step of decimal accumulation: append a digit to the value read
so far, failing on a non-digit or after an earlier failure. -/
def decStep (acc : Option Nat) (c : Char) : Option Nat :=
  match acc, digitVal c with
  | some n, some d => some (10 * n + d)
  | _, _ => none

/-- Positional value of a run of characters, `none` if any character is
not an ASCII digit. -/
def decValue : List Char → Option Nat :=
  List.foldl decStep (some 0)

/-- Python `int(s)` restricted to plain decimal forms: an optional sign
followed by at least one ASCII digit; anything else raises (`none`). -/
def pyInt (s : String) : Option Int :=
  match s.data with
  | [] => none
  | c :: cs =>
    if c = '-' then
      if cs = [] then none else (decValue cs).map (fun n => -(n : Int))
    else if c = '+' then
      if cs = [] then none else (decValue cs).map (fun n => (n : Int))
    else
      (decValue (c :: cs)).map (fun n => (n : Int))

namespace Config

/-- Modelled from the spec: the `Config.PORT` declaration in
`src/api_bridge.py` is truncated after `PORT = int(os` on line 40; the
spec records only that a port value is read from environment state, with
the exact variable name and default not recoverable.  We model it as
`int(os.getenv(portVar, dflt))` with the variable name and default left
as parameters. -/
def PORT (env : Env) (portVar dflt : String) : Option Int :=
  pyInt (osGetenv env portVar dflt)

end Config

/-! ### Module top-level execution order (lines 6-40) -/

/-- The top-level statements of `api_bridge.py`, in source order. -/
inductive TopStmt
  | importStmt
  | configureLogging
  | bindModuleLogger
  | createFlaskApp
  | registerCors
  | defineConfig
deriving DecidableEq, BEq

/-- The module body as executed at import time: each top-level statement
with its source line. -/
def moduleBody : List (Nat × TopStmt) :=
  [(6, .importStmt), (26, .configureLogging), (30, .bindModuleLogger),
   (33, .createFlaskApp), (34, .registerCors), (37, .defineConfig)]

/-- The statement sequence of the module body. -/
def moduleStmts : List TopStmt := moduleBody.map Prod.snd

/-- The position of a statement kind in the module body. -/
def stmtPos (s : TopStmt) : Nat := moduleStmts.findIdx (fun t => t == s)

/-! ### Shared lemmas -/

/-- Membership in the configured allowlist for `/api/*` is exactly
equality with one of the two registered origin strings. -/
theorem originPermitted_api_iff (o : String) :
    originPermitted "/api/*" o = true ↔
      (o = "https://evolution-ecosystem.web.app" ∨ o = "http://localhost:5000") := by
  show decide (o ∈ corsOrigins) = true ↔ _
  simp [corsOrigins, prodOrigin, localOrigin]

/-! ### Claim theorems -/

/-- C1: for every environment in which `FLASK_DEBUG` is set to a string
whose case-insensitive lowering is `"true"` (for example `"true"`,
`"True"`, `"TRUE"`), evaluating `Config.DEBUG` yields `true`. -/
theorem debug_true_ci (env : Env) (s : String)
    (h1 : env "FLASK_DEBUG" = some s) (h2 : pyLower s = "true") :
    Config.DEBUG env = true := by
  simp [Config.DEBUG, osGetenv, h1, h2]

/-- Witness for C1 at `FLASK_DEBUG=TRUE`. -/
theorem debug_true_ci_witness :
    Config.DEBUG (fun k => if k = "FLASK_DEBUG" then some "TRUE" else none) = true :=
  debug_true_ci _ "TRUE" rfl (by decide)

/-- C2: whenever `FLASK_DEBUG` is unset, or set to any string (the empty
string included) whose lowering is not `"true"`, `Config.DEBUG` evaluates
to `false`. -/
theorem debug_false_otherwise (env : Env)
    (h : env "FLASK_DEBUG" = none ∨
      ∃ s, env "FLASK_DEBUG" = some s ∧ pyLower s ≠ "true") :
    Config.DEBUG env = false := by
  rcases h with h | ⟨s, h1, h2⟩
  · simp only [Config.DEBUG, osGetenv, h, Option.getD_none]
    decide
  · simp only [Config.DEBUG, osGetenv, h1, Option.getD_some]
    exact beq_eq_false_iff_ne.mpr h2

/-- Witness for C2 at an environment with `FLASK_DEBUG` unset. -/
theorem debug_false_otherwise_witness :
    Config.DEBUG (fun _ => none) = false :=
  debug_false_otherwise _ (Or.inl rfl)

/-- C3: the registered cross-origin policy covers exactly the pattern
`/api/*`, and an origin is permitted for it if and only if it is one of
the two registered origin strings. -/
theorem cors_api_policy :
    corsPatterns = ["/api/*"] ∧
    ∀ o : String, originPermitted "/api/*" o = true ↔
      (o = "https://evolution-ecosystem.web.app" ∨ o = "http://localhost:5000") :=
  ⟨rfl, originPermitted_api_iff⟩

/-- C4: the logger threshold is `INFO`, a record is emitted exactly when
its severity is at least `INFO`, and the record format names exactly the
four fields timestamp (`asctime`), severity (`levelname`), originating
module (`module`) and message, in that order. -/
theorem logging_config :
    basicConfigLevel = PyLogging.INFO ∧
    (∀ sev : Nat, emitted sev = true ↔ PyLogging.INFO ≤ sev) ∧
    fieldsOfFormat logFormat = ["asctime", "levelname", "module", "message"] := by
  refine ⟨rfl, fun sev => ?_, by decide⟩
  simp [emitted, basicConfigLevel]

/-- C5: modelled from the spec (the `PORT` declaration is truncated in
the source after `int(os`): whenever the port environment variable holds
a nonempty all-digit decimal string of value `n`, `Config.PORT` evaluates
to `n`, whatever the default. -/
theorem port_from_env (env : Env) (v d s : String) (n : Nat)
    (h1 : env v = some s) (h2 : s.data ≠ [])
    (h3 : s.data.all isAsciiDigit = true) (h4 : decValue s.data = some n) :
    Config.PORT env v d = some (n : Int) := by
  unfold Config.PORT osGetenv
  rw [h1, Option.getD_some]
  unfold pyInt
  cases hd : s.data with
  | nil => exact absurd hd h2
  | cons c cs =>
    rw [hd] at h3 h4
    have hc : isAsciiDigit c = true := by
      simp only [List.all_cons, Bool.and_eq_true] at h3
      exact h3.1
    have hcm : c ≠ '-' := by
      intro h; rw [h] at hc; exact absurd hc (by decide)
    have hcp : c ≠ '+' := by
      intro h; rw [h] at hc; exact absurd hc (by decide)
    simp [hd, hcm, hcp, h4]

/-- Witness for C5 at `8080` with default `5000`. -/
theorem port_from_env_witness :
    Config.PORT (fun k => if k = "PORT" then some "8080" else none)
      "PORT" "5000" = some 8080 :=
  port_from_env _ "PORT" "5000" "8080" 8080 rfl (by decide) (by decide) (by decide)

/-- C6: in the module body executed at import time, the logging
configuration statement occurs exactly once, and it precedes both the
creation of the Flask application and the cross-origin registration; no
later top-level statement reconfigures the logger. -/
theorem logger_init_once :
    moduleStmts.count .configureLogging = 1 ∧
    stmtPos .configureLogging < stmtPos .createFlaskApp ∧
    stmtPos .configureLogging < stmtPos .registerCors := by
  decide

/-- C7: `Config.DEBUG` depends only on `FLASK_DEBUG`: two environments
agreeing on that variable (both unset or both bound to the same string)
yield the same boolean, however they differ elsewhere. -/
theorem debug_noninterference (env1 env2 : Env)
    (h : env1 "FLASK_DEBUG" = env2 "FLASK_DEBUG") :
    Config.DEBUG env1 = Config.DEBUG env2 := by
  unfold Config.DEBUG osGetenv
  rw [h]

/-- Witness for C7: two environments agreeing on `FLASK_DEBUG` but
disagreeing on every other variable. -/
theorem debug_noninterference_witness :
    Config.DEBUG (fun k => if k = "FLASK_DEBUG" then some "true" else none) =
    Config.DEBUG (fun k => if k = "FLASK_DEBUG" then some "true" else some "x") :=
  debug_noninterference _ _ rfl

/-- C8: evaluating the `Config.DEBUG` initializer is total and safe:
for every environment the exception-explicit evaluation returns `ok`
with the boolean `Config.DEBUG` computes, never an exception, because
`os.getenv` with a default cannot fail and neither can `lower` or the
string comparison. -/
theorem debug_eval_total (env : Env) :
    DEBUGEval env = Except.ok (Config.DEBUG env) := rfl

/-- C9: origin matching in the registered allowlist is by exact string,
scheme and port included: `http://localhost:5000` is permitted, while
variants differing only in scheme, port, or host spelling are not, and
in general only the two registered strings are permitted. -/
theorem local_origin_exact_match :
    originPermitted "/api/*" "http://localhost:5000" = true ∧
    originPermitted "/api/*" "https://localhost:5000" = false ∧
    originPermitted "/api/*" "http://localhost:3000" = false ∧
    originPermitted "/api/*" "http://127.0.0.1:5000" = false ∧
    ∀ o : String, originPermitted "/api/*" o = true ↔
      (o = "https://evolution-ecosystem.web.app" ∨ o = "http://localhost:5000") :=
  ⟨by decide, by decide, by decide, by decide, originPermitted_api_iff⟩
